import Mathlib

/-
  Verification development for the ExAID repository.

  This file gives a shallow embedding, in Lean 4, of the components of the
  ExAID trace-capture and summarization system that the checked claims are
  about: the Token Gate (src/agents/token_gate.py), the Buffer Agent
  (src/agents/buffer_agent.py), the domain schemas
  (src/schema/agent_summary.py, src/schema/fidelity_report.py,
  src/cdss_demo/schema/clinical_case.py), the EXAID engine (src/exaid.py),
  the Fidelity and Summarizer agents (src/agents/fidelity_agent.py,
  src/agents/summarizer_agent.py) and the CDSS workflow node/edge logic
  (src/cdss_demo/graph/nodes.py, src/cdss_demo/graph/edges.py).

  Conventions of the embedding:
  * Remote chat-model calls are modelled as oracle functions bundled in the
    `Oracles` structure: the embedded code is a pure function of the state
    and the oracle responses.
  * Wall-clock time is passed explicitly as an integer number of seconds
    (`now : Int`); the Python code reads `datetime.now` and compares elapsed
    `total_seconds()` against the configured thresholds.
  * Python exceptions are modelled with `Except PyErr`; effectful methods
    return the exception-or-value together with the mutated object state at
    the moment of return or raise (Python object mutations performed before
    a raise persist).
  * Python dicts keyed by strings are modelled as association lists
    (`StrMap`), and Python dynamic attribute access is modelled with an
    explicit attribute-name lookup that can fail (an `AttributeError`).
-/

namespace ExAID

/-- Kinds of Python exception raised by the embedded code. -/
inductive PyErr where
  | attributeError (attr : String)
  | typeError (msg : String)
deriving Repr, DecidableEq

/-- Association list with string keys, modelling a Python dict. -/
abbrev StrMap (α : Type) : Type := List (String × α)

/-- Dict lookup (`d[k]` / `k in d`): first binding for the key, if any. -/
def StrMap.get? {α : Type} : StrMap α → String → Option α
  | [], _ => none
  | (k0, v) :: t, k => if k0 = k then some v else StrMap.get? t k

/-- Dict write `d[k] = v`: overwrite in place, or append a new binding. -/
def StrMap.insert {α : Type} : StrMap α → String → α → StrMap α
  | [], k, v => [(k, v)]
  | (k0, v0) :: t, k, v =>
      if k0 = k then (k0, v) :: t else (k0, v0) :: StrMap.insert t k v

/-- Dict delete `del d[k]` (no error if absent, callers guard membership). -/
def StrMap.erase {α : Type} : StrMap α → String → StrMap α
  | [], _ => []
  | (k0, v0) :: t, k =>
      if k0 = k then StrMap.erase t k else (k0, v0) :: StrMap.erase t k

/-- Substring containment on character lists (Python `needle in hay`). -/
def listContainsSub (needle : List Char) : List Char → Bool
  | [] => needle.isPrefixOf []
  | c :: t => needle.isPrefixOf (c :: t) || listContainsSub needle t

/-- Python `needle in hay` on strings. -/
def strContainsSub (hay needle : String) : Bool :=
  listContainsSub needle.data hay.data

/-- Python slice `s[:n]` (by code points). -/
def strTake (s : String) (n : Nat) : String := String.mk (s.data.take n)

/-- Python `s.strip()`: drop leading and trailing whitespace. -/
def pyStrip (s : String) : String :=
  String.mk (((s.data.dropWhile Char.isWhitespace).reverse.dropWhile
    Char.isWhitespace).reverse)

/-- Python `s.upper()` (on the ASCII letters the code compares against). -/
def pyUpper (s : String) : String := String.mk (s.data.map Char.toUpper)

/-- Helper for `count_tokens`: counts the maximal whitespace-free runs in a
character list; the flag records whether the previous character was inside a
run. -/
def count_runs : Bool → List Char → Nat
  | _, [] => 0
  | in_run, c :: t =>
      if c.isWhitespace then count_runs false t
      else (if in_run then 0 else 1) + count_runs true t



namespace TokenGate

/-- Configuration of the Token Gate (src/agents/token_gate.py:12-33).
The constructed defaults are `min_tokens = 35`, `max_tokens = 90`,
`boundary_cues = ".?!\n"`, `silence_timer = 15`, `max_wait_timeout = 40`.
The two timers are floats in the source; the claims only compare elapsed
times against them, so they are carried as integers here. -/
structure GateConfig where
  min_tokens : Nat
  max_tokens : Nat
  boundary_cues : String
  silence_timer : Int
  max_wait_timeout : Int
deriving Repr, DecidableEq

/-- The constructed default configuration (src/agents/token_gate.py:12-18). -/
def defaultGateConfig : GateConfig :=
  { min_tokens := 35, max_tokens := 90, boundary_cues := ".?!\n",
    silence_timer := 15, max_wait_timeout := 40 }

/-- Per-agent mutable state of the Token Gate
(src/agents/token_gate.py:35-42): `self.buffers`,
`self.buffer_start_times`, `self.last_token_times`. -/
structure GateState where
  buffers : StrMap String
  buffer_start_times : StrMap Int
  last_token_times : StrMap Int
deriving Repr, DecidableEq

/-- A freshly constructed TokenGate: all three dicts empty. -/
def GateState.init : GateState :=
  { buffers := [], buffer_start_times := [], last_token_times := [] }

/-- `TokenGate._count_tokens` (src/agents/token_gate.py:44-54):
`len(text.split())` — split on whitespace runs and count the non-empty
fragments, i.e. the number of maximal whitespace-free runs. -/
def count_tokens (text : String) : Nat := count_runs false text.data

/-- `TokenGate._has_boundary_cue` (src/agents/token_gate.py:56-77).
`early_flush_threshold = int(min_threshold * 0.7)`, i.e. the floor of
`0.7 * min_threshold`, written here as `min_threshold * 7 / 10`. -/
def has_boundary_cue (cfg : GateConfig) (text : String) (min_threshold : Nat) : Bool :=
  let token_count := count_tokens text
  let early_flush_threshold := min_threshold * 7 / 10
  if token_count < early_flush_threshold then false
  else cfg.boundary_cues.data.any (fun cue => text.data.contains cue)

/-- `TokenGate._should_flush` (src/agents/token_gate.py:79-106).
Both branches of the boundary-cue conditional return `true`, exactly as in
the source (lines 100-104). -/
def should_flush (cfg : GateConfig) (g : GateState) (agent_id : String) : Bool :=
  match g.buffers.get? agent_id with
  | none => false
  | some buffer_text =>
      let token_count := count_tokens buffer_text
      if token_count ≥ cfg.max_tokens then true
      else if token_count ≥ cfg.min_tokens then
        if has_boundary_cue cfg buffer_text cfg.min_tokens then true
        else true
      else false

/-- `TokenGate.flush` (src/agents/token_gate.py:188-212): returns the
buffered text (or `none` if absent/empty), sets the buffer entry to the
empty string (the key stays present), and deletes both timestamps. -/
def flush (g : GateState) (agent_id : String) : GateState × Option String :=
  match g.buffers.get? agent_id with
  | none => (g, none)
  | some t =>
      if t = "" then (g, none)
      else
        ({ buffers := g.buffers.insert agent_id "",
           buffer_start_times := g.buffer_start_times.erase agent_id,
           last_token_times := g.last_token_times.erase agent_id }, some t)

/-- `TokenGate._check_timer_conditions` (src/agents/token_gate.py:108-134). -/
def check_timer_conditions (cfg : GateConfig) (g : GateState) (agent_id : String)
    (now : Int) : Bool :=
  match g.buffers.get? agent_id with
  | none => false
  | some t =>
      if t = "" then false
      else
        (match g.last_token_times.get? agent_id with
         | some last => decide (now - last ≥ cfg.silence_timer)
         | none => false) ||
        (match g.buffer_start_times.get? agent_id with
         | some start => decide (now - start ≥ cfg.max_wait_timeout)
         | none => false)

/-- `TokenGate.add_token` (src/agents/token_gate.py:136-186), with the
wall-clock read `datetime.now` passed in as `now`.  Steps in source order:
silence check against the existing buffer (flushing it first when expired),
buffer initialization only when the agent key is absent from `self.buffers`,
token append, last-token timestamp update, then the early return of a
silence flush, the max-wait check, and the structural check. -/
def add_token (cfg : GateConfig) (g : GateState) (agent_id token : String)
    (now : Int) : GateState × Option String :=
  let silenceStep : GateState × Option String :=
    match g.buffers.get? agent_id, g.last_token_times.get? agent_id with
    | some buf, some last =>
        if now - last ≥ cfg.silence_timer ∧ buf ≠ "" then flush g agent_id
        else (g, none)
    | _, _ => (g, none)
  let g1 := silenceStep.1
  let silence_flush := silenceStep.2
  let g2 :=
    if (g1.buffers.get? agent_id).isNone then
      { g1 with buffers := g1.buffers.insert agent_id "",
                buffer_start_times := g1.buffer_start_times.insert agent_id now }
    else g1
  let g3 := { g2 with
    buffers := g2.buffers.insert agent_id ((g2.buffers.get? agent_id).getD "" ++ token) }
  let g4 := { g3 with last_token_times := g3.last_token_times.insert agent_id now }
  let rest : GateState × Option String :=
    let afterMaxWait : GateState × Option String :=
      if should_flush cfg g4 agent_id then flush g4 agent_id else (g4, none)
    match g4.buffer_start_times.get? agent_id with
    | some start =>
        if now - start ≥ cfg.max_wait_timeout then flush g4 agent_id
        else afterMaxWait
    | none => afterMaxWait
  match silence_flush with
  | some s => if s = "" then rest else (g4, some s)
  | none => rest

/-- `TokenGate.check_timers` (src/agents/token_gate.py:214-228). -/
def check_timers (cfg : GateConfig) (g : GateState) (agent_id : String)
    (now : Int) : GateState × Option String :=
  if check_timer_conditions cfg g agent_id now then flush g agent_id
  else (g, none)

end TokenGate

/-- The six-field `AgentSummary` record (src/schema/agent_summary.py:3-42).
These six string fields are the only attributes the record defines. -/
structure AgentSummary where
  status_action : String
  key_findings : String
  differential_rationale : String
  uncertainty_confidence : String
  recommendation_next_step : String
  agent_contributions : String
deriving Repr, DecidableEq

/-- Python attribute lookup on an `AgentSummary` instance: the six schema
fields by their Python names, and nothing else.  In particular the names
`agents`, `action`, `reasoning`, `findings` and `next_steps` (fields of the
superseded five-field record in src/agents/summarizer.py:7-13) are absent. -/
def AgentSummary.attr? (s : AgentSummary) : String → Option String
  | "status_action" => some s.status_action
  | "key_findings" => some s.key_findings
  | "differential_rationale" => some s.differential_rationale
  | "uncertainty_confidence" => some s.uncertainty_confidence
  | "recommendation_next_step" => some s.recommendation_next_step
  | "agent_contributions" => some s.agent_contributions
  | _ => none

/-- Python attribute access `s.<name>`: raises `AttributeError` when the
attribute does not exist on the object. -/
def AgentSummary.getattr (s : AgentSummary) (name : String) : Except PyErr String :=
  match s.attr? name with
  | some v => Except.ok v
  | none => Except.error (PyErr.attributeError name)

/-- The per-field body of `AgentSummary.truncate_fields`
(src/schema/agent_summary.py:44-54): fields longer than 300 characters are
replaced by their first 297 characters followed by the three-character
marker; shorter fields pass through unchanged.  No exception is raised. -/
def truncate_field (s : String) : String :=
  if 300 < s.length then strTake s 297 ++ "..." else s

/-- Constructing a six-field `AgentSummary`: the `mode='before'` validator
`truncate_fields` runs on every field of the raw data before the record is
built, so construction is total. -/
def AgentSummary.construct (status_action key_findings differential_rationale
    uncertainty_confidence recommendation_next_step agent_contributions : String) :
    AgentSummary :=
  { status_action := truncate_field status_action,
    key_findings := truncate_field key_findings,
    differential_rationale := truncate_field differential_rationale,
    uncertainty_confidence := truncate_field uncertainty_confidence,
    recommendation_next_step := truncate_field recommendation_next_step,
    agent_contributions := truncate_field agent_contributions }

/-- `ValidationCheck` (src/schema/fidelity_report.py:4-7). -/
structure ValidationCheck where
  passed : Bool
  details : String
deriving Repr, DecidableEq

/-- `FidelityReport` (src/schema/fidelity_report.py:9-33). -/
structure FidelityReport where
  summary_to_source : StrMap ValidationCheck
  completeness : StrMap ValidationCheck
  consistency : StrMap ValidationCheck
  medical_accuracy : StrMap ValidationCheck
  overall_pass : Bool
  issues : List String
deriving Repr, DecidableEq

/-- `AgentDecision` (src/cdss_demo/agents/orchestrator_agent.py:8-12). -/
structure AgentDecision where
  call_laboratory : Bool
  call_cardiology : Bool
  reasoning : String
deriving Repr, DecidableEq

/-- Responses of the remote chat-model endpoints.  Every remote call made by
the embedded components is resolved through one of these oracle functions,
so the embedded code is a deterministic function of state plus oracles:
* `flag_response prev tagged` — content of the Buffer Agent trigger
  classification reply (src/agents/buffer_agent.py:75-79);
* `summarize_response history latest buffer` — structured output of
  `SummarizerAgent.summarize` (src/agents/summarizer_agent.py:75-82);
* `validate_response sources summary prev` — structured output of
  `FidelityAgent.validate` (src/agents/fidelity_agent.py:83-111);
* `decide_response case_text` — structured output of
  `OrchestratorAgent.analyze_and_decide`
  (src/cdss_demo/agents/orchestrator_agent.py:72-85). -/
structure Oracles where
  flag_response : String → String → String
  summarize_response : List String → String → String → AgentSummary
  validate_response : String → String → String → FidelityReport
  decide_response : String → AgentDecision

namespace BufferAgent

/-- `TraceData` (src/agents/buffer_agent.py:10-12). -/
structure TraceData where
  trace_text : List String
  count : Nat
deriving Repr, DecidableEq

/-- Mutable state of a `BufferAgent` (src/agents/buffer_agent.py:22-52):
the shared chronological buffer, the per-agent trace bookkeeping, and the
per-agent stream accumulation used only by the superseded
`add_streamed_tokens` path. -/
structure BufState where
  buffer : List String
  traces : StrMap TraceData
  stream_buffers : StrMap String
deriving Repr, DecidableEq

/-- A freshly constructed BufferAgent. -/
def BufState.init : BufState := { buffer := [], traces := [], stream_buffers := [] }

/-- `BufferAgent.addchunk` (src/agents/buffer_agent.py:54-83).  `now_str`
stands for the `datetime.now(UTC).strftime(...)` timestamp rendered into the
trace bookkeeping string.  If the shared buffer was empty the chunk triggers
unconditionally with no remote call; otherwise the flag oracle is consulted
with the previously buffered text and the tagged chunk, and the trigger is
whether the stripped, upper-cased reply contains `YES`. -/
def addchunk (o : Oracles) (st : BufState) (agent_id chunk now_str : String) :
    BufState × Bool :=
  let tagged_chunk := "| " ++ agent_id ++ " | " ++ chunk
  let td := (st.traces.get? agent_id).getD { trace_text := [], count := 0 }
  let trace_text := "| Timestamp: " ++ now_str ++ " | Trace Length: " ++
    toString chunk.length ++ " | " ++ chunk
  let td1 : TraceData := ⟨td.trace_text ++ [trace_text], td.count + 1⟩
  let st1 := { st with traces := st.traces.insert agent_id td1 }
  if st1.buffer = [] then
    ({ st1 with buffer := st1.buffer ++ [tagged_chunk] }, true)
  else
    let previous_traces := String.intercalate "\n" st1.buffer
    let st2 := { st1 with buffer := st1.buffer ++ [tagged_chunk] }
    let response_text := pyUpper (pyStrip (o.flag_response previous_traces tagged_chunk))
    (st2, strContainsSub response_text "YES")

/-- `BufferAgent.peek` (src/agents/buffer_agent.py:85-87). -/
def peek (st : BufState) : List String := st.buffer

/-- `BufferAgent.flush` (src/agents/buffer_agent.py:89-92). -/
def flush (st : BufState) : List String × BufState :=
  (st.buffer, { st with buffer := [] })

/-- `BufferAgent.get_trace_count` (src/agents/buffer_agent.py:94-95). -/
def get_trace_count (st : BufState) (agent_id : String) : Nat :=
  ((st.traces.get? agent_id).getD { trace_text := [], count := 0 }).count

end BufferAgent

namespace EXAID

/-- `EXAID._format_summary_for_history` (src/exaid.py:35-43).  Written
against the superseded five-field record, it reads `summary.agents`,
`summary.action`, `summary.reasoning`, `summary.findings`,
`summary.next_steps`; on the six-field `AgentSummary` the very first access
raises `AttributeError`.  (On the five-field shape `agents` is a list joined
with `", "` and the two optional fields are included only when truthy; the
structure below mirrors the source's access order.) -/
def format_summary_for_history (summary : AgentSummary) : Except PyErr String := do
  let agents_str ← summary.getattr "agents"
  let action ← summary.getattr "action"
  let reasoning ← summary.getattr "reasoning"
  let parts := ["Agents: " ++ agents_str, "Action: " ++ action,
    "Reasoning: " ++ reasoning]
  let findings ← summary.getattr "findings"
  let parts := if findings ≠ "" then parts ++ ["Findings: " ++ findings] else parts
  let next_steps ← summary.getattr "next_steps"
  let parts := if next_steps ≠ "" then parts ++ ["Next: " ++ next_steps] else parts
  Except.ok (String.intercalate " | " parts)

/-- `EXAID._format_summaries_history` (src/exaid.py:45-47): the list
comprehension propagates the first exception raised by
`_format_summary_for_history`. -/
def format_summaries_history : List AgentSummary → Except PyErr (List String)
  | [] => Except.ok []
  | s :: rest => do
      let x ← format_summary_for_history s
      let xs ← format_summaries_history rest
      Except.ok (x :: xs)

end EXAID

namespace FidelityAgent

/-- `FidelityAgent._format_summary` (src/agents/fidelity_agent.py:63-75):
also written against the superseded five-field record; the first access
`summary.agents` raises `AttributeError` on the six-field `AgentSummary`. -/
def format_summary (summary : AgentSummary) : Except PyErr String := do
  let agents_str ← summary.getattr "agents"
  let action ← summary.getattr "action"
  let reasoning ← summary.getattr "reasoning"
  let parts := ["Agents: " ++ agents_str, "Action: " ++ action,
    "Reasoning: " ++ reasoning]
  let findings ← summary.getattr "findings"
  let parts := if findings ≠ "" then parts ++ ["Findings: " ++ findings] else parts
  let next_steps ← summary.getattr "next_steps"
  let parts := if next_steps ≠ "" then parts ++ ["Next Steps: " ++ next_steps] else parts
  Except.ok (String.intercalate "\n" parts)

/-- `FidelityAgent._format_previous_summaries`
(src/agents/fidelity_agent.py:77-81). -/
def format_previous_summaries (summaries : List AgentSummary) :
    Except PyErr String :=
  if summaries = [] then Except.ok "No previous summaries."
  else do
    let parts ← summaries.mapM format_summary
    Except.ok (String.intercalate "\n---\n" parts)

/-- `FidelityAgent.validate` (src/agents/fidelity_agent.py:83-111): renders
the three prompt inputs, then issues the structured-output remote call. -/
def validate (o : Oracles) (summary : AgentSummary) (source_traces : List String)
    (previous_summaries : List AgentSummary) : Except PyErr FidelityReport := do
  let source_traces_str := String.intercalate "\n" source_traces
  let summary_str ← format_summary summary
  let previous_summaries_str ← format_previous_summaries previous_summaries
  Except.ok (o.validate_response source_traces_str summary_str previous_summaries_str)

end FidelityAgent

namespace SummarizerAgent

/-- `SummarizerAgent.summarize` (src/agents/summarizer_agent.py:75-82):
one structured-output remote call; no local retry or validation. -/
def summarize (o : Oracles) (summary_history : List String)
    (latest_summary new_buffer : String) : AgentSummary :=
  o.summarize_response summary_history latest_summary new_buffer

/-- The engine's retry call `self.summarizer_agent.summarize(...,
fidelity_feedback=feedback_issues)` (src/exaid.py:91-96).  The `summarize`
method defined at src/agents/summarizer_agent.py:75 accepts exactly
`(summary_history, latest_summary, new_buffer)`, so passing the extra
keyword raises a `TypeError` at the call site. -/
def summarize_with_fidelity_feedback (_o : Oracles) (_summary_history : List String)
    (_latest_summary _new_buffer _fidelity_feedback : String) :
    Except PyErr AgentSummary :=
  Except.error (PyErr.typeError
    "summarize got an unexpected keyword argument fidelity_feedback")

end SummarizerAgent

namespace EXAID

/-- Mutable state of the `EXAID` engine (src/exaid.py:10-16). -/
structure EXAIDState where
  buffer_agent : BufferAgent.BufState
  summaries : List AgentSummary
  fidelity_reports : List FidelityReport
  max_summary_retries : Nat
deriving Repr, DecidableEq

/-- A freshly constructed engine: `EXAID()` with the default retry budget. -/
def EXAIDState.init : EXAIDState :=
  { buffer_agent := BufferAgent.BufState.init, summaries := [],
    fidelity_reports := [], max_summary_retries := 3 }

/-- The fidelity feedback retry loop of `EXAID.received_trace`
(src/exaid.py:79-114), as a function of the remaining retry budget
(`retries_left = max_summary_retries - retry_count`).  Each iteration whose
entry condition holds re-summarizes with the accumulated issue list as
feedback (a call that raises `TypeError`, see
`SummarizerAgent.summarize_with_fidelity_feedback`), re-validates, keeps the
first passing attempt, and otherwise keeps whichever attempt has strictly
fewer issues than the best so far. -/
def retry_loop (o : Oracles) (summary_history_strs : List String)
    (latest_summary_str buffer_str : String) (source_traces : List String)
    (previous_summaries : List AgentSummary) (_summary : AgentSummary)
    (fidelity_report : FidelityReport) (best_summary : AgentSummary)
    (best_report : FidelityReport) :
    Nat → Except PyErr (AgentSummary × FidelityReport)
  | 0 => Except.ok (best_summary, best_report)
  | retries_left + 1 =>
      if fidelity_report.overall_pass then Except.ok (best_summary, best_report)
      else do
        let feedback_issues :=
          if fidelity_report.issues ≠ [] then
            String.intercalate "\n" fidelity_report.issues
          else "General fidelity issues detected."
        let summary2 ← SummarizerAgent.summarize_with_fidelity_feedback o
          summary_history_strs latest_summary_str buffer_str feedback_issues
        let report2 ← FidelityAgent.validate o summary2 source_traces
          previous_summaries
        if report2.overall_pass then Except.ok (summary2, report2)
        else if report2.issues.length < best_report.issues.length then
          retry_loop o summary_history_strs latest_summary_str buffer_str
            source_traces previous_summaries summary2 report2 summary2 report2
            retries_left
        else
          retry_loop o summary_history_strs latest_summary_str buffer_str
            source_traces previous_summaries summary2 report2 best_summary
            best_report retries_left

/-- `EXAID.received_trace` (src/exaid.py:49-121).  Feeds the text to the
Buffer Agent; on trigger captures the pre-flush buffer, flushes, renders the
summary history, summarizes, validates with the Fidelity Agent, runs the
retry loop, and appends the retained summary and report.  The returned state
carries every mutation performed before a raise. -/
def received_trace (o : Oracles) (st : EXAIDState) (id text now_str : String) :
    Except PyErr (Option AgentSummary) × EXAIDState :=
  let step := BufferAgent.addchunk o st.buffer_agent id text now_str
  let st1 := { st with buffer_agent := step.1 }
  if step.2 then
    let source_traces := BufferAgent.peek st1.buffer_agent
    let fl := BufferAgent.flush st1.buffer_agent
    let agent_buffer := fl.1
    let st2 := { st1 with buffer_agent := fl.2 }
    let buffer_str := String.intercalate "\n" agent_buffer
    let all_summaries := st2.summaries
    match (if 1 < all_summaries.length then
        format_summaries_history all_summaries.dropLast
      else Except.ok []) with
    | Except.error e => (Except.error e, st2)
    | Except.ok summary_history_strs =>
      match (match all_summaries.getLast? with
        | some last => format_summary_for_history last
        | none => Except.ok "No summaries yet.") with
      | Except.error e => (Except.error e, st2)
      | Except.ok latest_summary_str =>
        let summary := SummarizerAgent.summarize o summary_history_strs
          latest_summary_str buffer_str
        let previous_summaries := all_summaries
        match FidelityAgent.validate o summary source_traces previous_summaries with
        | Except.error e => (Except.error e, st2)
        | Except.ok fidelity_report =>
          match retry_loop o summary_history_strs latest_summary_str buffer_str
            source_traces previous_summaries summary fidelity_report summary
            fidelity_report st2.max_summary_retries with
          | Except.error e => (Except.error e, st2)
          | Except.ok best =>
            (Except.ok (some best.1),
             { st2 with summaries := st2.summaries ++ [best.1],
                        fidelity_reports := st2.fidelity_reports ++ [best.2] })
  else (Except.ok none, st1)

/-- One chunk-processing step of the streaming ingestion loop: an absent
chunk is skipped; a present chunk is processed through `received_trace`, and
the running "last summary produced" value is replaced when a summary is
produced.  (Helper for `received_streamed_tokens` below.) -/
def stream_process_chunk (o : Oracles) (st : EXAIDState) (id : String)
    (chunk? : Option String) (now_str : String) (last : Option AgentSummary) :
    Except PyErr (Option AgentSummary) × EXAIDState :=
  match chunk? with
  | none => (Except.ok last, st)
  | some chunk =>
      match received_trace o st id chunk now_str with
      | (Except.error e, st1) => (Except.error e, st1)
      | (Except.ok none, st1) => (Except.ok last, st1)
      | (Except.ok (some s), st1) => (Except.ok (some s), st1)

/-- Modelled from the spec: the loop body of
`EXAID.received_streamed_tokens` (spec section 4.9); the method itself is
absent from src/ — only its call sites exist (src/cdss_demo/cdss.py:57-151,
src/cdss_demo/graph/nodes.py:129/176/250, src/demo_stream.py:63-160).  The
asynchronous token stream is modelled as a finite list of
(arrival time, token) pairs pulled in order; `end_time` is the wall-clock
time at which the stream is exhausted.  Per the spec: every token is routed
through the Token Gate; every flushed chunk is processed exactly as
`received_trace` processes one chunk; the gate's timer check runs after
every token; after the stream ends a final gate flush drains residual text;
the last summary produced is returned (accumulated in `last`). -/
def received_streamed_tokens_loop (o : Oracles) (cfg : TokenGate.GateConfig)
    (gate : TokenGate.GateState) (st : EXAIDState) (id : String)
    (stream : List (Int × String)) (end_time : Int)
    (last : Option AgentSummary) :
    Except PyErr (Option AgentSummary) × TokenGate.GateState × EXAIDState :=
  match stream with
  | [] =>
      let fl := TokenGate.flush gate id
      match stream_process_chunk o st id fl.2 (toString end_time) last with
      | (r, st1) => (r, fl.1, st1)
  | (now, token) :: rest =>
      let a := TokenGate.add_token cfg gate id token now
      match stream_process_chunk o st id a.2 (toString now) last with
      | (Except.error e, st1) => (Except.error e, a.1, st1)
      | (Except.ok last1, st1) =>
          let c := TokenGate.check_timers cfg a.1 id now
          match stream_process_chunk o st1 id c.2 (toString now) last1 with
          | (Except.error e, st2) => (Except.error e, c.1, st2)
          | (Except.ok last2, st2) =>
              received_streamed_tokens_loop o cfg c.1 st2 id rest end_time last2

/-- Modelled from the spec: `EXAID.received_streamed_tokens(agent_id,
token_stream)` (spec section 4.9); see `received_streamed_tokens_loop` for
the modelling of the stream.  Starts with no summary produced yet. -/
def received_streamed_tokens (o : Oracles) (cfg : TokenGate.GateConfig)
    (gate : TokenGate.GateState) (st : EXAIDState) (id : String)
    (stream : List (Int × String)) (end_time : Int) :
    Except PyErr (Option AgentSummary) × TokenGate.GateState × EXAIDState :=
  received_streamed_tokens_loop o cfg gate st id stream end_time none

/-- An optional flushed chunk paired with its flush time, as a list of zero
or one elements. -/
def opt_pair (now : Int) : Option String → List (Int × String)
  | some t => [(now, t)]
  | none => []

/-- The Token-Gate-only projection of a streaming run: the same gate calls
as `received_streamed_tokens` (add_token, then the timer check, per token,
then a final flush), collecting the flushed chunks in order, each paired
with the wall-clock time at which it was flushed.  This definition performs
no engine processing; it is the specification side of claim C1. -/
def gate_run (cfg : TokenGate.GateConfig) (id : String) (end_time : Int) :
    TokenGate.GateState → List (Int × String) →
    TokenGate.GateState × List (Int × String)
  | gate, [] =>
      let fl := TokenGate.flush gate id
      (fl.1, opt_pair end_time fl.2)
  | gate, (now, token) :: rest =>
      let a := TokenGate.add_token cfg gate id token now
      let c := TokenGate.check_timers cfg a.1 id now
      let r := gate_run cfg id end_time c.1 rest
      (r.1, opt_pair now a.2 ++ opt_pair now c.2 ++ r.2)

/-- Chunk-wise engine processing: feed each (time, chunk) pair through
`received_trace` in order, collecting every summary produced, stopping at
the first raised exception.  This is "processing each flushed chunk exactly
as `received_trace` would" — the specification side of claim C1. -/
def engine_run (o : Oracles) (id : String) :
    EXAIDState → List (Int × String) →
    Except PyErr (List AgentSummary) × EXAIDState
  | st, [] => (Except.ok [], st)
  | st, (t, chunk) :: rest =>
      match received_trace o st id chunk (toString t) with
      | (Except.error e, st1) => (Except.error e, st1)
      | (Except.ok s?, st1) =>
          match engine_run o id st1 rest with
          | (Except.error e, st2) => (Except.error e, st2)
          | (Except.ok ss, st2) => (Except.ok (s?.toList ++ ss), st2)

/-- The last summary of `ss`, else the previously accumulated `last`. -/
def last_or (ss : List AgentSummary) (last : Option AgentSummary) :
    Option AgentSummary :=
  match ss.getLast? with
  | some s => some s
  | none => last

end EXAID

namespace CDSS

/-- Python truthiness of an optional string: `None` and `""` are falsy. -/
def truthyS : Option String → Bool
  | some s => s ≠ ""
  | none => false

/-- Python truthiness of an optional number: `None` and `0` are falsy.
(Several of these fields are floats in the source; the claims only inspect
presence/absence, so numbers are carried as integers here.) -/
def truthyI : Option Int → Bool
  | some n => n ≠ 0
  | none => false

/-- Python truthiness of an optional list: `None` and `[]` are falsy. -/
def truthyL {α : Type} : Option (List α) → Bool
  | some l => !l.isEmpty
  | none => false

/-- Python `x or d` on an optional string: `d` when `x` is falsy. -/
def orDefault (x : Option String) (d : String) : String :=
  match x with
  | some s => if s ≠ "" then s else d
  | none => d

/-- `VitalSigns` (src/cdss_demo/schema/clinical_case.py:3-12). -/
structure VitalSigns where
  systolic_bp : Option Int
  diastolic_bp : Option Int
  heart_rate : Option Int
  respiratory_rate : Option Int
  temperature : Option Int
  oxygen_saturation : Option Int
  weight : Option Int
  height : Option Int
deriving Repr, DecidableEq

/-- `LabResult` (src/cdss_demo/schema/clinical_case.py:15-22). -/
structure LabResult where
  test_name : String
  value : Option Int
  unit : Option String
  reference_range : Option String
  status : Option String
  date : Option String
deriving Repr, DecidableEq

/-- `ClinicalCase` (src/cdss_demo/schema/clinical_case.py:25-39). -/
structure ClinicalCase where
  patient_id : Option String
  age : Option Int
  sex : Option String
  chief_complaint : Option String
  history_of_present_illness : Option String
  past_medical_history : Option (List String)
  medications : Option (List String)
  allergies : Option (List String)
  vital_signs : Option VitalSigns
  lab_results : Option (List LabResult)
  imaging_results : Option (List String)
  physical_exam : Option String
  free_text : Option String
deriving Repr, DecidableEq

/-- The completely empty clinical case (every field `None`). -/
def ClinicalCase.empty : ClinicalCase :=
  { patient_id := none, age := none, sex := none, chief_complaint := none,
    history_of_present_illness := none, past_medical_history := none,
    medications := none, allergies := none, vital_signs := none,
    lab_results := none, imaging_results := none, physical_exam := none,
    free_text := none }

/-- Patient-id block of `to_clinical_summary`
(src/cdss_demo/schema/clinical_case.py:45-46): appended when the field is
truthy. -/
def part_patient_id (c : ClinicalCase) : List String :=
  if truthyS c.patient_id then ["Patient ID: " ++ c.patient_id.getD ""] else []

/-- Age/sex block (src/cdss_demo/schema/clinical_case.py:47-50):
`if self.age and self.sex: ... elif self.age: ...` — when `age` is falsy, a
present `sex` is never rendered; when `sex` is falsy, only the age line is. -/
def part_age_sex (c : ClinicalCase) : List String :=
  if truthyI c.age && truthyS c.sex then
    ["Patient: " ++ toString (c.age.getD 0) ++ "-year-old " ++ c.sex.getD ""]
  else if truthyI c.age then
    ["Age: " ++ toString (c.age.getD 0) ++ " years"]
  else []

/-- Chief-complaint block (src/cdss_demo/schema/clinical_case.py:52-53). -/
def part_chief_complaint (c : ClinicalCase) : List String :=
  if truthyS c.chief_complaint then
    ["\nChief Complaint: " ++ c.chief_complaint.getD ""]
  else []

/-- History block (src/cdss_demo/schema/clinical_case.py:55-56). -/
def part_history (c : ClinicalCase) : List String :=
  if truthyS c.history_of_present_illness then
    ["\nHistory of Present Illness:\n" ++ c.history_of_present_illness.getD ""]
  else []

/-- Past-medical-history block (src/cdss_demo/schema/clinical_case.py:58-59). -/
def part_past_medical_history (c : ClinicalCase) : List String :=
  if truthyL c.past_medical_history then
    ["\nPast Medical History: " ++
      String.intercalate ", " (c.past_medical_history.getD [])]
  else []

/-- Medications block (src/cdss_demo/schema/clinical_case.py:61-62). -/
def part_medications (c : ClinicalCase) : List String :=
  if truthyL c.medications then
    ["\nMedications: " ++ String.intercalate ", " (c.medications.getD [])]
  else []

/-- Allergies block (src/cdss_demo/schema/clinical_case.py:64-65). -/
def part_allergies (c : ClinicalCase) : List String :=
  if truthyL c.allergies then
    ["\nAllergies: " ++ String.intercalate ", " (c.allergies.getD [])]
  else []

/-- The `vitals` list built inside the vital-signs block
(src/cdss_demo/schema/clinical_case.py:68-76): only the blood-pressure pair,
heart rate, temperature and oxygen saturation are ever rendered;
`respiratory_rate`, `weight` and `height` are never read. -/
def vitals_list (v : VitalSigns) : List String :=
  (if truthyI v.systolic_bp && truthyI v.diastolic_bp then
    ["BP: " ++ toString (v.systolic_bp.getD 0) ++ "/" ++
      toString (v.diastolic_bp.getD 0) ++ " mmHg"]
   else []) ++
  (if truthyI v.heart_rate then
    ["HR: " ++ toString (v.heart_rate.getD 0) ++ " bpm"]
   else []) ++
  (if truthyI v.temperature then
    ["Temp: " ++ toString (v.temperature.getD 0) ++ "°C"]
   else []) ++
  (if truthyI v.oxygen_saturation then
    ["SpO2: " ++ toString (v.oxygen_saturation.getD 0) ++ "%"]
   else [])

/-- Vital-signs block (src/cdss_demo/schema/clinical_case.py:67-78): a
`VitalSigns` object is always truthy, but the part is appended only when
`vitals` is non-empty. -/
def part_vital_signs (c : ClinicalCase) : List String :=
  match c.vital_signs with
  | some v =>
      let vitals := vitals_list v
      if vitals ≠ [] then
        ["\nVital Signs: " ++ String.intercalate ", " vitals]
      else []
  | none => []

/-- One rendered laboratory line (src/cdss_demo/schema/clinical_case.py:82):
a `None` value renders as the literal text `None` under Python f-string
formatting. -/
def lab_line (lab : LabResult) : String :=
  "  - " ++ lab.test_name ++ ": " ++
    (match lab.value with | some n => toString n | none => "None") ++ " " ++
    orDefault lab.unit "" ++ " (" ++ orDefault lab.status "N/A" ++ ")"

/-- Laboratory-results block (src/cdss_demo/schema/clinical_case.py:80-85). -/
def part_lab_results (c : ClinicalCase) : List String :=
  if truthyL c.lab_results then
    ["\nLaboratory Results:\n" ++
      String.intercalate "\n" ((c.lab_results.getD []).map lab_line)]
  else []

/-- Imaging block (src/cdss_demo/schema/clinical_case.py:87-88). -/
def part_imaging_results (c : ClinicalCase) : List String :=
  if truthyL c.imaging_results then
    ["\nImaging Results: " ++ String.intercalate ", " (c.imaging_results.getD [])]
  else []

/-- Physical-exam block (src/cdss_demo/schema/clinical_case.py:90-91). -/
def part_physical_exam (c : ClinicalCase) : List String :=
  if truthyS c.physical_exam then
    ["\nPhysical Examination:\n" ++ c.physical_exam.getD ""]
  else []

/-- Free-text block (src/cdss_demo/schema/clinical_case.py:93-94). -/
def part_free_text (c : ClinicalCase) : List String :=
  if truthyS c.free_text then
    ["\nAdditional Notes:\n" ++ c.free_text.getD ""]
  else []

/-- The ordered `parts` list built by `to_clinical_summary`
(src/cdss_demo/schema/clinical_case.py:41-95), block by block in source
order. -/
def clinical_summary_parts (c : ClinicalCase) : List String :=
  part_patient_id c ++ part_age_sex c ++ part_chief_complaint c ++
  part_history c ++ part_past_medical_history c ++ part_medications c ++
  part_allergies c ++ part_vital_signs c ++ part_lab_results c ++
  part_imaging_results c ++ part_physical_exam c ++ part_free_text c

/-- `ClinicalCase.to_clinical_summary`
(src/cdss_demo/schema/clinical_case.py:41-96): `"\n".join(parts)`. -/
def ClinicalCase.to_clinical_summary (c : ClinicalCase) : String :=
  String.intercalate "\n" (clinical_summary_parts c)

/-- `CDSSGraphState` (src/cdss_demo/schema/graph_state.py:5-37), with the
engine instance embedded as an `EXAIDState`.  `consulted_agents` is used as
a Python list by the node code (src/cdss_demo/graph/nodes.py:24-26). -/
structure GraphState where
  case_text : String
  orchestrator_analysis : Option String
  agents_to_call : Option (StrMap Bool)
  consultation_request : Option String
  consulted_agents : Option (List String)
  laboratory_findings : Option String
  cardiology_findings : Option String
  final_synthesis : Option String
  exaid : EXAID.EXAIDState
deriving Repr, DecidableEq

/-- Truthiness of the `agents_to_call` dict (`None` and `{}` are falsy). -/
def truthy_atc (o : Option (StrMap Bool)) : Bool :=
  match o with
  | some m => m ≠ []
  | none => false

/-- `agents_to_call.get(k, False)` guarded by presence of the dict. -/
def atc_get (o : Option (StrMap Bool)) (k : String) : Bool :=
  match o with
  | some m => (m.get? k).getD false
  | none => false

/-- `evaluate_orchestrator_routing` (src/cdss_demo/graph/edges.py:10-30):
the explicit `synthesis` flag is checked first, then `laboratory`, then
`cardiology`, with `synthesis` as the fall-through default. -/
def evaluate_orchestrator_routing (state : GraphState) : String :=
  let a := state.agents_to_call
  if truthy_atc a && atc_get a "synthesis" then "synthesis"
  else if truthy_atc a && atc_get a "laboratory" then "laboratory"
  else if truthy_atc a && atc_get a "cardiology" then "cardiology"
  else "synthesis"

/-- The partial state update returned by a graph node (a Python dict whose
present keys overwrite the graph state).  `consultation_request` carries a
double option: `some none` models the node returning the key explicitly set
to `None`. -/
structure NodeUpdate where
  orchestrator_analysis : Option String := none
  agents_to_call : Option (StrMap Bool) := none
  consultation_request : Option (Option String) := none
  consulted_agents : Option (List String) := none
deriving Repr, DecidableEq

/-- Merging a node's returned dict into the graph state (LangGraph channel
update: returned keys overwrite, absent keys persist), together with the
mutated engine instance (shared by reference in the source). -/
def apply_update (state : GraphState) (u : NodeUpdate)
    (ex : EXAID.EXAIDState) : GraphState :=
  { state with
    orchestrator_analysis :=
      match u.orchestrator_analysis with
      | some v => some v
      | none => state.orchestrator_analysis,
    agents_to_call :=
      match u.agents_to_call with
      | some v => some v
      | none => state.agents_to_call,
    consultation_request :=
      match u.consultation_request with
      | some v => v
      | none => state.consultation_request,
    consulted_agents :=
      match u.consulted_agents with
      | some v => some v
      | none => state.consulted_agents,
    exaid := ex }

/-- Python `f"{b}"` on a bool. -/
def pyBool (b : Bool) : String := if b then "True" else "False"

/-- The loop-prevention decision text built by `orchestrator_node`
(src/cdss_demo/graph/nodes.py:35-38). -/
def consultation_loop_text (req : String) : String :=
  "Consultation request for " ++ req ++ " received, but this agent " ++
  "has already been consulted. Routing to synthesis to prevent loop."

/-- The honoring decision text built by `orchestrator_node`
(src/cdss_demo/graph/nodes.py:46-49). -/
def consultation_honor_text (req : String) : String :=
  "Honoring consultation request for " ++ req ++ " agent. " ++
  "This agent will be consulted to provide additional expertise."

/-- The post-findings and initial-analysis modes of `orchestrator_node`
(src/cdss_demo/graph/nodes.py:59-102), reached when no truthy consultation
request is present.  The orchestrator constructed by the node carries
`agent_id = "OrchestratorAgent"`
(src/cdss_demo/agents/orchestrator_agent.py:18). -/
def orchestrator_node_rest (o : Oracles) (state : GraphState)
    (consulted_agents : List String) (now_str : String) :
    Except PyErr NodeUpdate × EXAID.EXAIDState :=
  let laboratory_done := state.laboratory_findings.isSome
  let cardiology_done := state.cardiology_findings.isSome
  if laboratory_done || cardiology_done then
    let atc : StrMap Bool :=
      (if ¬ laboratory_done ∧ "laboratory" ∉ consulted_agents then
        [("laboratory", true)] else []) ++
      (if ¬ cardiology_done ∧ "cardiology" ∉ consulted_agents then
        [("cardiology", true)] else [])
    if atc = [] then
      (Except.ok { agents_to_call := some [("synthesis", true)],
                   consulted_agents := some consulted_agents }, state.exaid)
    else
      (Except.ok { agents_to_call := some atc,
                   consulted_agents := some consulted_agents }, state.exaid)
  else
    let decision := o.decide_response state.case_text
    let decision_text :=
      "Analyzed clinical case and decided which agents to consult.\n" ++
      "Reasoning: " ++ decision.reasoning ++ "\n" ++
      "Call Laboratory Agent: " ++ pyBool decision.call_laboratory ++ "\n" ++
      "Call Cardiology Agent: " ++ pyBool decision.call_cardiology
    match EXAID.received_trace o state.exaid "OrchestratorAgent" decision_text
      now_str with
    | (Except.error e, ex1) => (Except.error e, ex1)
    | (Except.ok _, ex1) =>
        (Except.ok { orchestrator_analysis := some decision_text,
                     agents_to_call := some
                       [("laboratory", decision.call_laboratory),
                        ("cardiology", decision.call_cardiology)],
                     consulted_agents := some consulted_agents }, ex1)

/-- `orchestrator_node` (src/cdss_demo/graph/nodes.py:17-102).  In
consultation-evaluation mode an already-consulted requested agent routes to
synthesis (loop prevention); otherwise the request is honored; with no
truthy request the post-findings / initial-analysis modes run. -/
def orchestrator_node (o : Oracles) (state : GraphState) (now_str : String) :
    Except PyErr NodeUpdate × EXAID.EXAIDState :=
  let consulted_agents := state.consulted_agents.getD []
  match state.consultation_request with
  | some req =>
      if req ≠ "" then
        if req ∈ consulted_agents then
          match EXAID.received_trace o state.exaid "OrchestratorAgent"
            (consultation_loop_text req) now_str with
          | (Except.error e, ex1) => (Except.error e, ex1)
          | (Except.ok _, ex1) =>
              (Except.ok { consultation_request := some none,
                           agents_to_call := some [("synthesis", true)] }, ex1)
        else
          match EXAID.received_trace o state.exaid "OrchestratorAgent"
            (consultation_honor_text req) now_str with
          | (Except.error e, ex1) => (Except.error e, ex1)
          | (Except.ok _, ex1) =>
              (Except.ok { consultation_request := some none,
                           agents_to_call := some [(req, true)],
                           consulted_agents :=
                             some (consulted_agents ++ [req]) }, ex1)
      else orchestrator_node_rest o state consulted_agents now_str
  | none => orchestrator_node_rest o state consulted_agents now_str

end CDSS

/-! Concrete instances used by the witness and counterexample theorems. -/

/-- A six-field summary with short fields. -/
def sampleSummary : AgentSummary :=
  { status_action := "sa", key_findings := "kf", differential_rationale := "dr",
    uncertainty_confidence := "uc", recommendation_next_step := "rs",
    agent_contributions := "ac" }

/-- A passing fidelity report with no issues. -/
def passReport : FidelityReport :=
  { summary_to_source := [], completeness := [], consistency := [],
    medical_accuracy := [], overall_pass := true, issues := [] }

/-- A failing fidelity report with one issue. -/
def failReport : FidelityReport :=
  { summary_to_source := [], completeness := [], consistency := [],
    medical_accuracy := [], overall_pass := false, issues := ["issue 1"] }

/-- A fixed oracle bundle whose trigger classification always replies
`NO`. -/
def oracleNo : Oracles :=
  { flag_response := fun _ _ => "NO",
    summarize_response := fun _ _ _ => sampleSummary,
    validate_response := fun _ _ _ => passReport,
    decide_response := fun _ => ⟨false, false, "r"⟩ }

/-- A fixed oracle bundle whose trigger classification always replies
`YES`. -/
def oracleYes : Oracles :=
  { flag_response := fun _ _ => "YES",
    summarize_response := fun _ _ _ => sampleSummary,
    validate_response := fun _ _ _ => passReport,
    decide_response := fun _ => ⟨false, false, "r"⟩ }

/-- A small Token Gate configuration used by concrete runs:
`min_tokens = 2`, `max_tokens = 5`, default cues and timers. -/
def smallCfg : TokenGate.GateConfig :=
  { min_tokens := 2, max_tokens := 5, boundary_cues := ".?!\n",
    silence_timer := 15, max_wait_timeout := 40 }

/-- A gate state whose buffer for agent `a` holds two whitespace-separated
tokens, opened at time 0. -/
def gTwoTokens : TokenGate.GateState :=
  { buffers := [("a", "w1 w2")], buffer_start_times := [("a", 0)],
    last_token_times := [("a", 0)] }

/-- A gate state for agent `a` with buffered text `hello `, last token at
time 0. -/
def gSilence : TokenGate.GateState :=
  { buffers := [("a", "hello ")], buffer_start_times := [("a", 0)],
    last_token_times := [("a", 0)] }

/-- Concrete `add_token` run for claim C4, step 1: token `x ` at time 0. -/
def c4Run1 : TokenGate.GateState × Option String :=
  TokenGate.add_token smallCfg TokenGate.GateState.init "a" "x " 0

/-- C4 step 2: token `y ` at time 1 — reaches `min_tokens`, flushes. -/
def c4Run2 : TokenGate.GateState × Option String :=
  TokenGate.add_token smallCfg c4Run1.1 "a" "y " 1

/-- C4 step 3: token `z` at time 2 — the first token after the flush, which
the claim says must record a fresh buffer-opening time. -/
def c4Run3 : TokenGate.GateState × Option String :=
  TokenGate.add_token smallCfg c4Run2.1 "a" "z" 2

/-- C4 step 4: token `z` at time 12 (each gap below the silence timer). -/
def c4Run4 : TokenGate.GateState × Option String :=
  TokenGate.add_token smallCfg c4Run3.1 "a" "z" 12

/-- C4 step 5: token `z` at time 22. -/
def c4Run5 : TokenGate.GateState × Option String :=
  TokenGate.add_token smallCfg c4Run4.1 "a" "z" 22

/-- C4 step 6: token `z` at time 32. -/
def c4Run6 : TokenGate.GateState × Option String :=
  TokenGate.add_token smallCfg c4Run5.1 "a" "z" 32

/-- C4 step 7: token `z` at time 42 — the buffer opened at time 2 has now
been open for 40 seconds, exactly `max_wait_timeout`. -/
def c4Run7 : TokenGate.GateState × Option String :=
  TokenGate.add_token smallCfg c4Run6.1 "a" "z" 42

/-- Concrete Buffer Agent run for claim C7: first chunk into a fresh
agent. -/
def c7First : BufferAgent.BufState × Bool :=
  BufferAgent.addchunk oracleNo BufferAgent.BufState.init "a" "c1" "t0"

/-- C7: the engine-style flush after the first trigger empties the shared
buffer. -/
def c7Flushed : BufferAgent.BufState := (BufferAgent.flush c7First.1).2

/-- C7: a second chunk added after the flush, with the classification oracle
replying `NO`. -/
def c7Second : BufferAgent.BufState × Bool :=
  BufferAgent.addchunk oracleNo c7Flushed "a" "c2" "t1"

/-- The clinical case falsifying claim C9: `sex` present without `age`,
empty-string and zero fields present, and vital signs carrying only the
never-rendered measurements (respiratory rate, weight, height). -/
def caseCx : CDSS.ClinicalCase :=
  { CDSS.ClinicalCase.empty with
    patient_id := some "", age := some 0, sex := some "F",
    chief_complaint := some "",
    vital_signs := some
      { systolic_bp := none, diastolic_bp := none, heart_rate := none,
        respiratory_rate := some 20, temperature := none,
        oxygen_saturation := none, weight := some 70, height := some 170 } }

/-- Fully-populated vital signs used by the C9 witness. -/
def vFull : CDSS.VitalSigns :=
  { systolic_bp := some 150, diastolic_bp := some 90, heart_rate := some 110,
    respiratory_rate := some 20, temperature := some 37,
    oxygen_saturation := some 95, weight := some 80, height := some 175 }

/-- A fully-populated clinical case used by the C9 witness. -/
def caseFull : CDSS.ClinicalCase :=
  { patient_id := some "P1", age := some 63, sex := some "M",
    chief_complaint := some "chest pain",
    history_of_present_illness := some "2 hours of pressure",
    past_medical_history := some ["HTN"], medications := some ["aspirin"],
    allergies := some ["penicillin"],
    vital_signs := some vFull,
    lab_results := some [⟨"troponin", some 2, some "ng", none, some "high", none⟩],
    imaging_results := some ["CXR normal"],
    physical_exam := some "diaphoretic", free_text := some "note" }

/-- A clinical case carrying only a nonzero age (no sex), used by the C9
witness for the age-only rendering branch. -/
def caseAgeOnly : CDSS.ClinicalCase :=
  { CDSS.ClinicalCase.empty with age := some 40 }

/-- A 310-character field value, used by the C8 witness. -/
def longA : String := String.mk (List.replicate 310 'a')

/-- An engine state whose Buffer Agent already holds one chunk, so that the
next `addchunk` consults the (`NO`-replying) oracle and does not trigger. -/
def engineNonEmpty : EXAID.EXAIDState :=
  { EXAID.EXAIDState.init with
    buffer_agent := { buffer := ["| a | x"], traces := [], stream_buffers := [] } }

/-- The graph state used by the C10 witness: a consultation request for
`laboratory`, which is already in `consulted_agents`. -/
def stateLoop : CDSS.GraphState :=
  { case_text := "case", orchestrator_analysis := none,
    agents_to_call := none, consultation_request := some "laboratory",
    consulted_agents := some ["laboratory"], laboratory_findings := none,
    cardiology_findings := none, final_synthesis := none,
    exaid := engineNonEmpty }

/-! ## Theorems -/

theorem StrMap.get?_insert_self {α : Type} (m : StrMap α) (k : String) (v : α) :
    (StrMap.insert m k v).get? k = some v := by
  induction m with
  | nil => simp [StrMap.insert, StrMap.get?]
  | cons hd t ih =>
      obtain ⟨k0, v0⟩ := hd
      by_cases h : k0 = k <;> simp [StrMap.insert, StrMap.get?, h, ih]

theorem StrMap.get?_erase_self {α : Type} (m : StrMap α) (k : String) :
    (StrMap.erase m k).get? k = none := by
  induction m with
  | nil => simp [StrMap.erase, StrMap.get?]
  | cons hd t ih =>
      obtain ⟨k0, v0⟩ := hd
      by_cases h : k0 = k <;> simp [StrMap.erase, StrMap.get?, h, ih]

/-- Claim C5: with `min_tokens ≤ max_tokens`, the structural flush condition
of the Token Gate holds iff the whitespace-token count of the buffered text
is at or above `min_tokens`, and its outcome is independent of the
configured `boundary_cues` (the boundary-cue branch and the fall-through
branch of `_should_flush` return the same result). -/
theorem token_gate_structural_flush_iff_min
    (cfg : TokenGate.GateConfig) (g : TokenGate.GateState)
    (agent_id buf : String)
    (hminmax : cfg.min_tokens ≤ cfg.max_tokens)
    (hbuf : g.buffers.get? agent_id = some buf) :
    (TokenGate.should_flush cfg g agent_id = true ↔
      cfg.min_tokens ≤ TokenGate.count_tokens buf) ∧
    ∀ cues : String,
      TokenGate.should_flush { cfg with boundary_cues := cues } g agent_id =
        TokenGate.should_flush cfg g agent_id := by
  constructor
  · unfold TokenGate.should_flush
    rw [hbuf]
    simp only [ge_iff_le]
    split_ifs <;> simp_all
    all_goals omega
  · intro cues
    unfold TokenGate.should_flush
    rw [hbuf]
    simp only [ge_iff_le]
    split_ifs <;> rfl

/-- Witness for C5: the two-token buffer of agent `a` under the
`min_tokens = 2` configuration. -/
theorem token_gate_structural_flush_iff_min_witness :
    (TokenGate.should_flush smallCfg gTwoTokens "a" = true ↔
      smallCfg.min_tokens ≤ TokenGate.count_tokens "w1 w2") ∧
    ∀ cues : String,
      TokenGate.should_flush { smallCfg with boundary_cues := cues }
          gTwoTokens "a" =
        TokenGate.should_flush smallCfg gTwoTokens "a" :=
  token_gate_structural_flush_iff_min smallCfg gTwoTokens "a" "w1 w2"
    (by decide) (by decide)

/-- Claim C6: for an agent with a non-empty gate buffer whose last token is
at least `silence_timer` seconds old, the next `add_token` returns exactly
the previously accumulated pre-silence text as a flush, with the triggering
token placed in a fresh buffer (not appended to the flushed text), and
`check_timers` likewise returns the pre-silence text. -/
theorem token_gate_silence_flush_presilence
    (cfg : TokenGate.GateConfig) (g : TokenGate.GateState)
    (agent_id token buf : String) (now last : Int)
    (hbuf : g.buffers.get? agent_id = some buf) (hne : buf ≠ "")
    (hlast : g.last_token_times.get? agent_id = some last)
    (ht : cfg.silence_timer ≤ now - last) :
    (TokenGate.add_token cfg g agent_id token now).2 = some buf ∧
    (TokenGate.add_token cfg g agent_id token now).1.buffers.get? agent_id =
      some token ∧
    (TokenGate.check_timers cfg g agent_id now).2 = some buf := by
  have hflush : TokenGate.flush g agent_id =
      ({ buffers := g.buffers.insert agent_id "",
         buffer_start_times := g.buffer_start_times.erase agent_id,
         last_token_times := g.last_token_times.erase agent_id }, some buf) := by
    unfold TokenGate.flush
    rw [hbuf]
    simp [hne]
  refine ⟨?_, ?_, ?_⟩
  · unfold TokenGate.add_token
    rw [hbuf, hlast]
    simp only [ge_iff_le, hne, ht, ne_eq, not_false_iff, and_true, if_true,
      hflush, StrMap.get?_insert_self]
    simp [hne]
  · unfold TokenGate.add_token
    rw [hbuf, hlast]
    simp only [ge_iff_le, hne, ht, ne_eq, not_false_iff, and_true, if_true,
      hflush, StrMap.get?_insert_self]
    simp [hne, StrMap.get?_insert_self]
  · unfold TokenGate.check_timers TokenGate.check_timer_conditions
    rw [hbuf, hlast]
    simp [hne, ht, hflush]

/-- Witness for C6: agent `a` buffered `hello ` with last token at time 0,
next token at time 15 (the default silence timer). -/
theorem token_gate_silence_flush_presilence_witness :
    (TokenGate.add_token smallCfg gSilence "a" "tok" 15).2 = some "hello " ∧
    (TokenGate.add_token smallCfg gSilence "a" "tok" 15).1.buffers.get? "a" =
      some "tok" ∧
    (TokenGate.check_timers smallCfg gSilence "a" 15).2 = some "hello " :=
  token_gate_silence_flush_presilence smallCfg gSilence "a" "tok" "hello "
    15 0 (by decide) (by decide) (by decide) (by decide)

/-- Claim C4 (failing evaluation): the claim says every `add_token` call
that opens a fresh buffer — including the call immediately after a flush —
records the buffer's opening time, and that a buffer open for at least
`max_wait_timeout` seconds is flushed by the next `add_token`.  On the code
this fails: `flush` sets the buffer entry to `""` but keeps the key, so the
post-flush `add_token` at time 2 skips the initialization branch and records
no opening time, and the call at time 42 (buffer open exactly
`max_wait_timeout = 40` seconds, structural and silence conditions false)
returns no flush; `check_timers` at time 44 also returns none. -/
theorem token_gate_max_wait_start_time_bug :
    c4Run2.2 = some "x y " ∧
    c4Run3.1.buffers.get? "a" = some "z" ∧
    c4Run3.1.buffer_start_times.get? "a" = none ∧
    c4Run7.1.buffers.get? "a" = some "zzzzz" ∧
    c4Run7.2 = none ∧
    (TokenGate.check_timers smallCfg c4Run7.1 "a" 44).2 = none := by
  decide

/-- Claim C7 (counterexample): the claim says only the first chunk ever
bypasses the remote call, and that every later chunk's trigger equals the
`YES`-containment of the classification reply.  On the code the bootstrap
branch fires whenever the shared buffer is empty: after the first trigger's
flush empties the buffer, the second chunk also returns `true` even though
the oracle replies `NO` (whose upper-cased text does not contain `YES`). -/
theorem buffer_agent_trigger_cx :
    c7First.2 = true ∧
    c7Flushed.buffer = [] ∧
    c7Second.2 = true ∧
    strContainsSub (pyUpper (pyStrip (oracleNo.flag_response
      (String.intercalate "\n" c7Flushed.buffer) "| a | c2"))) "YES" = false := by
  decide

/-- Claim C7 (amended): every chunk added while the shared buffer is empty
(the first chunk ever, and any chunk following a flush that emptied the
buffer) yields trigger = true with no remote call (the result is
independent of the oracle); every chunk added to a non-empty shared buffer
yields a trigger equal to whether the stripped, upper-cased classification
reply contains the substring `YES`. -/
theorem buffer_agent_trigger_amended
    (o o2 : Oracles) (st : BufferAgent.BufState)
    (agent_id chunk now_str : String) :
    (st.buffer = [] →
      (BufferAgent.addchunk o st agent_id chunk now_str).2 = true ∧
      BufferAgent.addchunk o st agent_id chunk now_str =
        BufferAgent.addchunk o2 st agent_id chunk now_str) ∧
    (st.buffer ≠ [] →
      (BufferAgent.addchunk o st agent_id chunk now_str).2 =
        strContainsSub (pyUpper (pyStrip (o.flag_response
          (String.intercalate "\n" st.buffer)
          ("| " ++ agent_id ++ " | " ++ chunk)))) "YES") := by
  constructor
  · intro h
    unfold BufferAgent.addchunk
    simp [h]
  · intro h
    unfold BufferAgent.addchunk
    simp [h]

/-- Witness for C7 (amended): the empty-buffer branch on a fresh Buffer
Agent (against both oracles) and the non-empty branch after one chunk. -/
theorem buffer_agent_trigger_amended_witness :
    ((BufferAgent.addchunk oracleNo BufferAgent.BufState.init "a" "c1" "t0").2
        = true ∧
      BufferAgent.addchunk oracleNo BufferAgent.BufState.init "a" "c1" "t0" =
        BufferAgent.addchunk oracleYes BufferAgent.BufState.init "a" "c1" "t0") ∧
    (BufferAgent.addchunk oracleNo c7First.1 "a" "c2" "t1").2 =
      strContainsSub (pyUpper (pyStrip (oracleNo.flag_response
        (String.intercalate "\n" c7First.1.buffer)
        ("| " ++ "a" ++ " | " ++ "c2")))) "YES" :=
  ⟨(buffer_agent_trigger_amended oracleNo oracleYes BufferAgent.BufState.init
      "a" "c1" "t0").1 (by decide),
   (buffer_agent_trigger_amended oracleNo oracleNo c7First.1
      "a" "c2" "t1").2 (by decide)⟩

theorem truncate_field_spec (s : String) :
    (300 < s.length →
      truncate_field s = strTake s 297 ++ "..." ∧
      (truncate_field s).length = 300) ∧
    (s.length ≤ 300 → truncate_field s = s) := by
  constructor
  · intro h
    have heq : truncate_field s = strTake s 297 ++ "..." := by
      unfold truncate_field
      rw [if_pos h]
    refine ⟨heq, ?_⟩
    rw [heq]
    have hdata : (strTake s 297 ++ ("..." : String)).length =
        (s.data.take 297).length + 3 := by
      show (s.data.take 297 ++ "...".data).length = _
      simp
    rw [hdata, List.length_take]
    have h2 : 300 < s.data.length := h
    omega
  · intro h
    unfold truncate_field
    rw [if_neg (by omega)]

/-- Claim C8: constructing a six-field `AgentSummary` never raises on
over-long field text — the validator truncates instead: every field value
longer than 300 characters is stored as its first 297 characters followed
by the three-character ellipsis marker (300 characters in total), and every
field value of length at most 300 is stored unchanged. -/
theorem agent_summary_truncation
    (a b c d e f : String) :
    ((300 < a.length →
        (AgentSummary.construct a b c d e f).status_action =
          strTake a 297 ++ "..." ∧
        (AgentSummary.construct a b c d e f).status_action.length = 300) ∧
      (a.length ≤ 300 → (AgentSummary.construct a b c d e f).status_action = a)) ∧
    ((300 < b.length →
        (AgentSummary.construct a b c d e f).key_findings =
          strTake b 297 ++ "..." ∧
        (AgentSummary.construct a b c d e f).key_findings.length = 300) ∧
      (b.length ≤ 300 → (AgentSummary.construct a b c d e f).key_findings = b)) ∧
    ((300 < c.length →
        (AgentSummary.construct a b c d e f).differential_rationale =
          strTake c 297 ++ "..." ∧
        (AgentSummary.construct a b c d e f).differential_rationale.length = 300) ∧
      (c.length ≤ 300 →
        (AgentSummary.construct a b c d e f).differential_rationale = c)) ∧
    ((300 < d.length →
        (AgentSummary.construct a b c d e f).uncertainty_confidence =
          strTake d 297 ++ "..." ∧
        (AgentSummary.construct a b c d e f).uncertainty_confidence.length = 300) ∧
      (d.length ≤ 300 →
        (AgentSummary.construct a b c d e f).uncertainty_confidence = d)) ∧
    ((300 < e.length →
        (AgentSummary.construct a b c d e f).recommendation_next_step =
          strTake e 297 ++ "..." ∧
        (AgentSummary.construct a b c d e f).recommendation_next_step.length = 300) ∧
      (e.length ≤ 300 →
        (AgentSummary.construct a b c d e f).recommendation_next_step = e)) ∧
    ((300 < f.length →
        (AgentSummary.construct a b c d e f).agent_contributions =
          strTake f 297 ++ "..." ∧
        (AgentSummary.construct a b c d e f).agent_contributions.length = 300) ∧
      (f.length ≤ 300 →
        (AgentSummary.construct a b c d e f).agent_contributions = f)) :=
  ⟨truncate_field_spec a, truncate_field_spec b, truncate_field_spec c,
   truncate_field_spec d, truncate_field_spec e, truncate_field_spec f⟩

set_option maxRecDepth 8192 in
/-- Witness for C8: a 310-character field is stored as 297 characters plus
the marker; a short field is stored unchanged. -/
theorem agent_summary_truncation_witness :
    300 < longA.length ∧
    ((AgentSummary.construct longA "k" "d" "u" "r" "c").status_action =
        strTake longA 297 ++ "..." ∧
      (AgentSummary.construct longA "k" "d" "u" "r" "c").status_action.length
        = 300) ∧
    (AgentSummary.construct longA "k" "d" "u" "r" "c").key_findings = "k" :=
  ⟨by decide,
   (agent_summary_truncation longA "k" "d" "u" "r" "c").1.1 (by decide),
   (agent_summary_truncation longA "k" "d" "u" "r" "c").2.1.2 (by decide)⟩

theorem format_summary_for_history_err (s : AgentSummary) :
    EXAID.format_summary_for_history s =
      Except.error (PyErr.attributeError "agents") := rfl

theorem fidelity_format_summary_err (s : AgentSummary) :
    FidelityAgent.format_summary s =
      Except.error (PyErr.attributeError "agents") := rfl

theorem fidelity_validate_err (o : Oracles) (s : AgentSummary)
    (source_traces : List String) (previous_summaries : List AgentSummary) :
    FidelityAgent.validate o s source_traces previous_summaries =
      Except.error (PyErr.attributeError "agents") := rfl

theorem format_summaries_history_cons_err (s : AgentSummary)
    (rest : List AgentSummary) :
    EXAID.format_summaries_history (s :: rest) =
      Except.error (PyErr.attributeError "agents") := rfl

/-- Claim C2: whenever the Buffer Agent's `addchunk` triggers inside
`EXAID.received_trace`, the call raises `AttributeError` — the rendering
steps (the engine's history formatting and the Fidelity Agent's summary
formatting) read the attributes `agents`, `action` and `reasoning`, which
the six-field `AgentSummary` does not define — and the engine's `summaries`
list is never extended by this path. -/
theorem received_trace_triggered_raises
    (o : Oracles) (st : EXAID.EXAIDState) (id text now_str : String)
    (h : (BufferAgent.addchunk o st.buffer_agent id text now_str).2 = true) :
    (EXAID.received_trace o st id text now_str).1 =
      Except.error (PyErr.attributeError "agents") ∧
    (EXAID.received_trace o st id text now_str).2.summaries = st.summaries := by
  simp only [EXAID.received_trace, h, if_true]
  rcases hsum : st.summaries with _ | ⟨s1, rest⟩
  · simp [hsum, fidelity_validate_err]
  · rcases rest with _ | ⟨s2, rest2⟩
    · simp [hsum, format_summary_for_history_err]
    · simp [hsum, format_summaries_history_cons_err,
        List.dropLast_cons_of_ne_nil]

/-- Witness for C2: a fresh engine, whose first chunk always triggers. -/
theorem received_trace_triggered_raises_witness :
    (EXAID.received_trace oracleNo EXAID.EXAIDState.init "a" "hello" "t0").1 =
      Except.error (PyErr.attributeError "agents") ∧
    (EXAID.received_trace oracleNo EXAID.EXAIDState.init "a" "hello"
        "t0").2.summaries =
      EXAID.EXAIDState.init.summaries :=
  received_trace_triggered_raises oracleNo EXAID.EXAIDState.init "a" "hello"
    "t0" (by decide)

/-- Claim C3 (failing evaluation): the claim says a failing fidelity report
makes the engine re-summarize with the issue list as feedback and always
yield a best-effort summary.  On the code the first retry iteration raises:
the engine calls `summarize(..., fidelity_feedback=...)` (src/exaid.py:91-96)
but `SummarizerAgent.summarize` (src/agents/summarizer_agent.py:75) accepts
no such parameter, so the call raises `TypeError` — here evaluated with a
non-passing report, one accumulated issue, and the default retry budget.
(Moreover the loop is unreachable: validation itself raises
`AttributeError` first, see claim C2.) -/
theorem retry_loop_type_error_eval :
    EXAID.retry_loop oracleNo [] "No summaries yet." "buf" [] [] sampleSummary
      failReport sampleSummary failReport
      EXAID.EXAIDState.init.max_summary_retries =
      Except.error (PyErr.typeError
        "summarize got an unexpected keyword argument fidelity_feedback") := by
  rfl

theorem mem_clinical_parts (c : CDSS.ClinicalCase) (x : String)
    (h : x ∈ CDSS.part_patient_id c ∨ x ∈ CDSS.part_age_sex c ∨
      x ∈ CDSS.part_chief_complaint c ∨ x ∈ CDSS.part_history c ∨
      x ∈ CDSS.part_past_medical_history c ∨ x ∈ CDSS.part_medications c ∨
      x ∈ CDSS.part_allergies c ∨ x ∈ CDSS.part_vital_signs c ∨
      x ∈ CDSS.part_lab_results c ∨ x ∈ CDSS.part_imaging_results c ∨
      x ∈ CDSS.part_physical_exam c ∨ x ∈ CDSS.part_free_text c) :
    x ∈ CDSS.clinical_summary_parts c := by
  unfold CDSS.clinical_summary_parts
  simp only [List.mem_append]
  tauto

/-- Claim C9 (counterexample): the claim says `to_clinical_summary` includes
the content of every present field, naming sex and each populated vital-sign
measurement.  On the code a present `sex` without a truthy `age` is never
rendered, and respiratory rate, weight and height are never read: this case
has `sex`, respiratory rate, weight, height (and empty-string / zero fields)
present, yet renders to the empty string. -/
theorem clinical_summary_cx :
    CDSS.ClinicalCase.to_clinical_summary caseCx = "" ∧
    caseCx.sex = some "F" ∧
    caseCx.vital_signs =
      some ⟨none, none, none, some 20, none, none, some 70, some 170⟩ := by
  decide

/-- Claim C9 (amended): `to_clinical_summary` is a pure function assembling
the ordered parts list into one text block; it includes, as a labeled part,
the content of every present and non-falsy field among patient id, age,
chief complaint, history, past medical history, medications, allergies, the
blood-pressure pair, heart rate, temperature, oxygen saturation, lab
results, imaging results, physical exam and free-text notes; `sex` is
rendered only together with a nonzero age (with a zero or absent age the
age/sex block is empty); respiratory rate, weight and height never affect
the rendered vitals; and each absent field contributes nothing. -/
theorem clinical_summary_amended (c : CDSS.ClinicalCase) :
    (CDSS.ClinicalCase.to_clinical_summary c =
      String.intercalate "\n" (CDSS.clinical_summary_parts c)) ∧
    (∀ p, c.patient_id = some p → p ≠ "" →
      ("Patient ID: " ++ p) ∈ CDSS.clinical_summary_parts c) ∧
    (∀ a sx, c.age = some a → a ≠ 0 → c.sex = some sx → sx ≠ "" →
      ("Patient: " ++ toString a ++ "-year-old " ++ sx) ∈
        CDSS.clinical_summary_parts c) ∧
    (∀ a, c.age = some a → a ≠ 0 → (c.sex = none ∨ c.sex = some "") →
      ("Age: " ++ toString a ++ " years") ∈ CDSS.clinical_summary_parts c) ∧
    ((c.age = none ∨ c.age = some 0) → CDSS.part_age_sex c = []) ∧
    (∀ s, c.chief_complaint = some s → s ≠ "" →
      ("\nChief Complaint: " ++ s) ∈ CDSS.clinical_summary_parts c) ∧
    (∀ s, c.history_of_present_illness = some s → s ≠ "" →
      ("\nHistory of Present Illness:\n" ++ s) ∈
        CDSS.clinical_summary_parts c) ∧
    (∀ l, c.past_medical_history = some l → l ≠ [] →
      ("\nPast Medical History: " ++ String.intercalate ", " l) ∈
        CDSS.clinical_summary_parts c) ∧
    (∀ l, c.medications = some l → l ≠ [] →
      ("\nMedications: " ++ String.intercalate ", " l) ∈
        CDSS.clinical_summary_parts c) ∧
    (∀ l, c.allergies = some l → l ≠ [] →
      ("\nAllergies: " ++ String.intercalate ", " l) ∈
        CDSS.clinical_summary_parts c) ∧
    (∀ v s d, c.vital_signs = some v → v.systolic_bp = some s → s ≠ 0 →
      v.diastolic_bp = some d → d ≠ 0 →
      ("BP: " ++ toString s ++ "/" ++ toString d ++ " mmHg") ∈
        CDSS.vitals_list v ∧
      ("\nVital Signs: " ++ String.intercalate ", " (CDSS.vitals_list v)) ∈
        CDSS.clinical_summary_parts c) ∧
    (∀ v n, c.vital_signs = some v → v.heart_rate = some n → n ≠ 0 →
      ("HR: " ++ toString n ++ " bpm") ∈ CDSS.vitals_list v ∧
      ("\nVital Signs: " ++ String.intercalate ", " (CDSS.vitals_list v)) ∈
        CDSS.clinical_summary_parts c) ∧
    (∀ v n, c.vital_signs = some v → v.temperature = some n → n ≠ 0 →
      ("Temp: " ++ toString n ++ "°C") ∈ CDSS.vitals_list v ∧
      ("\nVital Signs: " ++ String.intercalate ", " (CDSS.vitals_list v)) ∈
        CDSS.clinical_summary_parts c) ∧
    (∀ v n, c.vital_signs = some v → v.oxygen_saturation = some n → n ≠ 0 →
      ("SpO2: " ++ toString n ++ "%") ∈ CDSS.vitals_list v ∧
      ("\nVital Signs: " ++ String.intercalate ", " (CDSS.vitals_list v)) ∈
        CDSS.clinical_summary_parts c) ∧
    (∀ v x y z, CDSS.vitals_list
        { v with respiratory_rate := x, weight := y, height := z } =
      CDSS.vitals_list v) ∧
    (∀ l, c.lab_results = some l → l ≠ [] →
      ("\nLaboratory Results:\n" ++
        String.intercalate "\n" (l.map CDSS.lab_line)) ∈
        CDSS.clinical_summary_parts c) ∧
    (∀ l, c.imaging_results = some l → l ≠ [] →
      ("\nImaging Results: " ++ String.intercalate ", " l) ∈
        CDSS.clinical_summary_parts c) ∧
    (∀ s, c.physical_exam = some s → s ≠ "" →
      ("\nPhysical Examination:\n" ++ s) ∈ CDSS.clinical_summary_parts c) ∧
    (∀ s, c.free_text = some s → s ≠ "" →
      ("\nAdditional Notes:\n" ++ s) ∈ CDSS.clinical_summary_parts c) ∧
    ((c.patient_id = none → CDSS.part_patient_id c = []) ∧
     (c.age = none → CDSS.part_age_sex c = []) ∧
     (c.chief_complaint = none → CDSS.part_chief_complaint c = []) ∧
     (c.history_of_present_illness = none → CDSS.part_history c = []) ∧
     (c.past_medical_history = none →
       CDSS.part_past_medical_history c = []) ∧
     (c.medications = none → CDSS.part_medications c = []) ∧
     (c.allergies = none → CDSS.part_allergies c = []) ∧
     (c.vital_signs = none → CDSS.part_vital_signs c = []) ∧
     (c.lab_results = none → CDSS.part_lab_results c = []) ∧
     (c.imaging_results = none → CDSS.part_imaging_results c = []) ∧
     (c.physical_exam = none → CDSS.part_physical_exam c = []) ∧
     (c.free_text = none → CDSS.part_free_text c = [])) := by
  refine ⟨rfl, ?_, ?_, ?_, ?_, ?_, ?_, ?_, ?_, ?_, ?_, ?_, ?_, ?_, ?_, ?_,
    ?_, ?_, ?_, ?_⟩
  · intro p hp hne
    exact mem_clinical_parts c _ (Or.inl (by
      simp [CDSS.part_patient_id, CDSS.truthyS, hp, hne]))
  · intro a sx ha hane hs hsne
    refine mem_clinical_parts c _ (Or.inr (Or.inl (by
      simp [CDSS.part_age_sex, CDSS.truthyI, CDSS.truthyS, ha, hane, hs, hsne])))
  · intro a ha hane hs
    refine mem_clinical_parts c _ (Or.inr (Or.inl ?_))
    rcases hs with hs | hs <;>
      simp [CDSS.part_age_sex, CDSS.truthyI, CDSS.truthyS, ha, hane, hs]
  · intro ha
    rcases ha with ha | ha <;> simp [CDSS.part_age_sex, CDSS.truthyI, ha]
  · intro s hs hne
    exact mem_clinical_parts c _ (Or.inr (Or.inr (Or.inl (by
      simp [CDSS.part_chief_complaint, CDSS.truthyS, hs, hne]))))
  · intro s hs hne
    exact mem_clinical_parts c _ (Or.inr (Or.inr (Or.inr (Or.inl (by
      simp [CDSS.part_history, CDSS.truthyS, hs, hne])))))
  · intro l hl hne
    exact mem_clinical_parts c _ (Or.inr (Or.inr (Or.inr (Or.inr (Or.inl (by
      simp [CDSS.part_past_medical_history, CDSS.truthyL, hl, hne]))))))
  · intro l hl hne
    exact mem_clinical_parts c _ (Or.inr (Or.inr (Or.inr (Or.inr (Or.inr
      (Or.inl (by simp [CDSS.part_medications, CDSS.truthyL, hl, hne])))))))
  · intro l hl hne
    exact mem_clinical_parts c _ (Or.inr (Or.inr (Or.inr (Or.inr (Or.inr
      (Or.inr (Or.inl (by
        simp [CDSS.part_allergies, CDSS.truthyL, hl, hne]))))))))
  · intro v s d hv hsy hsne hdi hdne
    have hm : ("BP: " ++ toString s ++ "/" ++ toString d ++ " mmHg") ∈
        CDSS.vitals_list v := by
      simp [CDSS.vitals_list, CDSS.truthyI, hsy, hsne, hdi, hdne]
    refine ⟨hm, ?_⟩
    have hvne : CDSS.vitals_list v ≠ [] := by
      intro h0
      rw [h0] at hm
      simp at hm
    refine mem_clinical_parts c _ (Or.inr (Or.inr (Or.inr (Or.inr (Or.inr
      (Or.inr (Or.inr (Or.inl (by
        simp [CDSS.part_vital_signs, hv, hvne])))))))))
  · intro v n hv hn hne
    have hm : ("HR: " ++ toString n ++ " bpm") ∈ CDSS.vitals_list v := by
      simp [CDSS.vitals_list, CDSS.truthyI, hn, hne]
    refine ⟨hm, ?_⟩
    have hvne : CDSS.vitals_list v ≠ [] := by
      intro h0
      rw [h0] at hm
      simp at hm
    refine mem_clinical_parts c _ (Or.inr (Or.inr (Or.inr (Or.inr (Or.inr
      (Or.inr (Or.inr (Or.inl (by
        simp [CDSS.part_vital_signs, hv, hvne])))))))))
  · intro v n hv hn hne
    have hm : ("Temp: " ++ toString n ++ "°C") ∈ CDSS.vitals_list v := by
      simp [CDSS.vitals_list, CDSS.truthyI, hn, hne]
    refine ⟨hm, ?_⟩
    have hvne : CDSS.vitals_list v ≠ [] := by
      intro h0
      rw [h0] at hm
      simp at hm
    refine mem_clinical_parts c _ (Or.inr (Or.inr (Or.inr (Or.inr (Or.inr
      (Or.inr (Or.inr (Or.inl (by
        simp [CDSS.part_vital_signs, hv, hvne])))))))))
  · intro v n hv hn hne
    have hm : ("SpO2: " ++ toString n ++ "%") ∈ CDSS.vitals_list v := by
      simp [CDSS.vitals_list, CDSS.truthyI, hn, hne]
    refine ⟨hm, ?_⟩
    have hvne : CDSS.vitals_list v ≠ [] := by
      intro h0
      rw [h0] at hm
      simp at hm
    refine mem_clinical_parts c _ (Or.inr (Or.inr (Or.inr (Or.inr (Or.inr
      (Or.inr (Or.inr (Or.inl (by
        simp [CDSS.part_vital_signs, hv, hvne])))))))))
  · intro v x y z
    rfl
  · intro l hl hne
    exact mem_clinical_parts c _ (Or.inr (Or.inr (Or.inr (Or.inr (Or.inr
      (Or.inr (Or.inr (Or.inr (Or.inl (by
        simp [CDSS.part_lab_results, CDSS.truthyL, hl, hne]))))))))))
  · intro l hl hne
    exact mem_clinical_parts c _ (Or.inr (Or.inr (Or.inr (Or.inr (Or.inr
      (Or.inr (Or.inr (Or.inr (Or.inr (Or.inl (by
        simp [CDSS.part_imaging_results, CDSS.truthyL, hl, hne])))))))))))
  · intro s hs hne
    exact mem_clinical_parts c _ (Or.inr (Or.inr (Or.inr (Or.inr (Or.inr
      (Or.inr (Or.inr (Or.inr (Or.inr (Or.inr (Or.inl (by
        simp [CDSS.part_physical_exam, CDSS.truthyS, hs, hne]))))))))))))
  · intro s hs hne
    exact mem_clinical_parts c _ (Or.inr (Or.inr (Or.inr (Or.inr (Or.inr
      (Or.inr (Or.inr (Or.inr (Or.inr (Or.inr (Or.inr (by
        simp [CDSS.part_free_text, CDSS.truthyS, hs, hne]))))))))))))
  · refine ⟨?_, ?_, ?_, ?_, ?_, ?_, ?_, ?_, ?_, ?_, ?_, ?_⟩ <;>
      intro h <;>
      simp [CDSS.part_patient_id, CDSS.part_age_sex,
        CDSS.part_chief_complaint, CDSS.part_history,
        CDSS.part_past_medical_history, CDSS.part_medications,
        CDSS.part_allergies, CDSS.part_vital_signs, CDSS.part_lab_results,
        CDSS.part_imaging_results, CDSS.part_physical_exam,
        CDSS.part_free_text, CDSS.truthyS, CDSS.truthyI, CDSS.truthyL, h]

/-- Witness for C9 (amended): every rendered field of the fully-populated
case appears in its parts list; the age-only and sex-only branches behave as
amended; absent fields contribute nothing. -/
theorem clinical_summary_amended_witness :
    ("Patient ID: " ++ "P1") ∈ CDSS.clinical_summary_parts caseFull ∧
    ("Patient: " ++ toString (63 : Int) ++ "-year-old " ++ "M") ∈
      CDSS.clinical_summary_parts caseFull ∧
    ("Age: " ++ toString (40 : Int) ++ " years") ∈
      CDSS.clinical_summary_parts caseAgeOnly ∧
    CDSS.part_age_sex caseCx = [] ∧
    ("\nChief Complaint: " ++ "chest pain") ∈
      CDSS.clinical_summary_parts caseFull ∧
    ("\nHistory of Present Illness:\n" ++ "2 hours of pressure") ∈
      CDSS.clinical_summary_parts caseFull ∧
    ("\nPast Medical History: " ++ String.intercalate ", " ["HTN"]) ∈
      CDSS.clinical_summary_parts caseFull ∧
    ("\nMedications: " ++ String.intercalate ", " ["aspirin"]) ∈
      CDSS.clinical_summary_parts caseFull ∧
    ("\nAllergies: " ++ String.intercalate ", " ["penicillin"]) ∈
      CDSS.clinical_summary_parts caseFull ∧
    (("BP: " ++ toString (150 : Int) ++ "/" ++ toString (90 : Int) ++
        " mmHg") ∈ CDSS.vitals_list vFull ∧
      ("\nVital Signs: " ++
        String.intercalate ", " (CDSS.vitals_list vFull)) ∈
        CDSS.clinical_summary_parts caseFull) ∧
    ("HR: " ++ toString (110 : Int) ++ " bpm") ∈ CDSS.vitals_list vFull ∧
    ("Temp: " ++ toString (37 : Int) ++ "°C") ∈ CDSS.vitals_list vFull ∧
    ("SpO2: " ++ toString (95 : Int) ++ "%") ∈ CDSS.vitals_list vFull ∧
    ("\nLaboratory Results:\n" ++ String.intercalate "\n"
        (([⟨"troponin", some 2, some "ng", none, some "high", none⟩] :
          List CDSS.LabResult).map CDSS.lab_line)) ∈
      CDSS.clinical_summary_parts caseFull ∧
    ("\nImaging Results: " ++ String.intercalate ", " ["CXR normal"]) ∈
      CDSS.clinical_summary_parts caseFull ∧
    ("\nPhysical Examination:\n" ++ "diaphoretic") ∈
      CDSS.clinical_summary_parts caseFull ∧
    ("\nAdditional Notes:\n" ++ "note") ∈
      CDSS.clinical_summary_parts caseFull ∧
    CDSS.part_patient_id CDSS.ClinicalCase.empty = [] ∧
    CDSS.part_vital_signs CDSS.ClinicalCase.empty = [] := by
  have HF := clinical_summary_amended caseFull
  have HA := clinical_summary_amended caseAgeOnly
  have HC := clinical_summary_amended caseCx
  have HE := clinical_summary_amended CDSS.ClinicalCase.empty
  refine ⟨HF.2.1 "P1" (by decide) (by decide),
    HF.2.2.1 63 "M" (by decide) (by decide) (by decide) (by decide),
    HA.2.2.2.1 40 (by decide) (by decide) (Or.inl (by decide)),
    HC.2.2.2.2.1 (Or.inr (by decide)),
    HF.2.2.2.2.2.1 "chest pain" (by decide) (by decide),
    HF.2.2.2.2.2.2.1 "2 hours of pressure" (by decide) (by decide),
    HF.2.2.2.2.2.2.2.1 ["HTN"] (by decide) (by decide),
    HF.2.2.2.2.2.2.2.2.1 ["aspirin"] (by decide) (by decide),
    HF.2.2.2.2.2.2.2.2.2.1 ["penicillin"] (by decide) (by decide),
    HF.2.2.2.2.2.2.2.2.2.2.1 vFull 150 90 (by decide) (by decide) (by decide)
      (by decide) (by decide),
    (HF.2.2.2.2.2.2.2.2.2.2.2.1 vFull 110 (by decide) (by decide)
      (by decide)).1,
    (HF.2.2.2.2.2.2.2.2.2.2.2.2.1 vFull 37 (by decide) (by decide)
      (by decide)).1,
    (HF.2.2.2.2.2.2.2.2.2.2.2.2.2.1 vFull 95 (by decide) (by decide)
      (by decide)).1,
    HF.2.2.2.2.2.2.2.2.2.2.2.2.2.2.2.1
      [⟨"troponin", some 2, some "ng", none, some "high", none⟩]
      (by decide) (by decide),
    HF.2.2.2.2.2.2.2.2.2.2.2.2.2.2.2.2.1 ["CXR normal"] (by decide)
      (by decide),
    HF.2.2.2.2.2.2.2.2.2.2.2.2.2.2.2.2.2.1 "diaphoretic" (by decide)
      (by decide),
    HF.2.2.2.2.2.2.2.2.2.2.2.2.2.2.2.2.2.2.1 "note" (by decide) (by decide),
    HE.2.2.2.2.2.2.2.2.2.2.2.2.2.2.2.2.2.2.2.1 (by decide),
    HE.2.2.2.2.2.2.2.2.2.2.2.2.2.2.2.2.2.2.2.2.2.2.2.2.2.2.1 (by decide)⟩

/-- Claim C10: when the consultation request names an agent already in
`consulted_agents`, the orchestrator node (provided its trace capture
returns rather than raises) produces `agents_to_call` carrying the
`synthesis` flag set true (clearing the request), the routing function on
the updated state returns `synthesis`, and the routing function honors the
`synthesis` flag before the `laboratory`/`cardiology` flags: any non-empty
`agents_to_call` with a true `synthesis` entry routes to synthesis no
matter which other flags are set. -/
theorem cdss_consultation_loop_prevention
    (o : Oracles) (state : CDSS.GraphState) (req now_str : String)
    (v : Option AgentSummary)
    (h1 : state.consultation_request = some req) (h2 : req ≠ "")
    (h3 : req ∈ state.consulted_agents.getD [])
    (h4 : (EXAID.received_trace o state.exaid "OrchestratorAgent"
      (CDSS.consultation_loop_text req) now_str).1 = Except.ok v) :
    (CDSS.orchestrator_node o state now_str).1 =
      Except.ok { consultation_request := some none,
                  agents_to_call := some [("synthesis", true)] } ∧
    CDSS.evaluate_orchestrator_routing
      (CDSS.apply_update state
        { consultation_request := some none,
          agents_to_call := some [("synthesis", true)] }
        (CDSS.orchestrator_node o state now_str).2) = "synthesis" ∧
    (∀ (st2 : CDSS.GraphState) (atc : StrMap Bool),
      st2.agents_to_call = some atc → atc ≠ [] →
      (atc.get? "synthesis").getD false = true →
      CDSS.evaluate_orchestrator_routing st2 = "synthesis") := by
  refine ⟨?_, ?_, ?_⟩
  · unfold CDSS.orchestrator_node
    rw [h1]
    rcases hrt : EXAID.received_trace o state.exaid "OrchestratorAgent"
      (CDSS.consultation_loop_text req) now_str with ⟨r, ex⟩
    rw [hrt] at h4
    simp only at h4
    subst h4
    simp [h2, h3]
    rw [hrt]
  · simp [CDSS.apply_update, CDSS.evaluate_orchestrator_routing,
      CDSS.truthy_atc, CDSS.atc_get, StrMap.get?]
  · intro st2 atc ha hne hsyn
    simp [CDSS.evaluate_orchestrator_routing, CDSS.truthy_atc,
      CDSS.atc_get, ha, hne, hsyn]

/-- Witness for C10: a consultation request for `laboratory` with
`laboratory` already consulted, on an engine whose trace capture returns
without triggering. -/
theorem cdss_consultation_loop_prevention_witness :
    (CDSS.orchestrator_node oracleNo stateLoop "t0").1 =
      Except.ok { consultation_request := some none,
                  agents_to_call := some [("synthesis", true)] } ∧
    CDSS.evaluate_orchestrator_routing
      (CDSS.apply_update stateLoop
        { consultation_request := some none,
          agents_to_call := some [("synthesis", true)] }
        (CDSS.orchestrator_node oracleNo stateLoop "t0").2) = "synthesis" ∧
    (∀ (st2 : CDSS.GraphState) (atc : StrMap Bool),
      st2.agents_to_call = some atc → atc ≠ [] →
      (atc.get? "synthesis").getD false = true →
      CDSS.evaluate_orchestrator_routing st2 = "synthesis") :=
  cdss_consultation_loop_prevention oracleNo stateLoop "laboratory" "t0"
    none (by decide) (by decide) (by decide) (by rfl)

theorem last_or_append (ss ss2 : List AgentSummary)
    (last : Option AgentSummary) :
    EXAID.last_or (ss ++ ss2) last = EXAID.last_or ss2 (EXAID.last_or ss last) := by
  unfold EXAID.last_or
  rcases h2 : ss2.getLast? with _ | s
  · have h0 : ss2 = [] := by
      cases ss2 with
      | nil => rfl
      | cons a t => simp [List.getLast?] at h2
    subst h0
    simp
  · have hne : ss2 ≠ [] := by
      intro h0
      subst h0
      simp at h2
    rw [List.getLast?_append_of_ne_nil _ hne, h2]

theorem engine_run_append (o : Oracles) (id : String) :
    ∀ (l1 l2 : List (Int × String)) (st : EXAID.EXAIDState),
    EXAID.engine_run o id st (l1 ++ l2) =
      (match EXAID.engine_run o id st l1 with
       | (Except.error e, st1) => (Except.error e, st1)
       | (Except.ok ss, st1) =>
         match EXAID.engine_run o id st1 l2 with
         | (Except.error e, st2) => (Except.error e, st2)
         | (Except.ok ss2, st2) => (Except.ok (ss ++ ss2), st2)) := by
  intro l1
  induction l1 with
  | nil =>
      intro l2 st
      simp [EXAID.engine_run]
      rcases EXAID.engine_run o id st l2 with ⟨r, st2⟩
      cases r <;> simp
  | cons hd tl ih =>
      intro l2 st
      obtain ⟨t, chunk⟩ := hd
      simp only [List.cons_append, EXAID.engine_run]
      rcases EXAID.received_trace o st id chunk (toString t) with ⟨r, st1⟩
      cases r with
      | error e => simp
      | ok s? =>
          simp only [List.append_eq]
          rw [ih l2 st1]
          rcases EXAID.engine_run o id st1 tl with ⟨r2, st2⟩
          cases r2 with
          | error e => simp
          | ok ss =>
              simp only []
              rcases EXAID.engine_run o id st2 l2 with ⟨r3, st3⟩
              cases r3 <;> simp

theorem stream_process_chunk_engine (o : Oracles) (st : EXAID.EXAIDState)
    (id : String) (now : Int) (c? : Option String)
    (last : Option AgentSummary) :
    EXAID.stream_process_chunk o st id c? (toString now) last =
      (match EXAID.engine_run o id st (EXAID.opt_pair now c?) with
       | (Except.error e, st1) => (Except.error e, st1)
       | (Except.ok ss, st1) => (Except.ok (EXAID.last_or ss last), st1)) := by
  cases c? with
  | none => simp [EXAID.stream_process_chunk, EXAID.opt_pair,
      EXAID.engine_run, EXAID.last_or]
  | some chunk =>
      simp only [EXAID.stream_process_chunk, EXAID.opt_pair, EXAID.engine_run]
      rcases EXAID.received_trace o st id chunk (toString now) with ⟨r, st1⟩
      cases r with
      | error e => simp
      | ok s? => cases s? <;> simp [EXAID.last_or, EXAID.engine_run]

theorem received_streamed_tokens_loop_staged (o : Oracles)
    (cfg : TokenGate.GateConfig) (id : String) (end_time : Int) :
    ∀ (stream : List (Int × String)) (gate : TokenGate.GateState)
      (st : EXAID.EXAIDState) (last : Option AgentSummary),
    ((EXAID.received_streamed_tokens_loop o cfg gate st id stream end_time
        last).1 =
      (match (EXAID.engine_run o id st
          (EXAID.gate_run cfg id end_time gate stream).2).1 with
       | Except.error e => Except.error e
       | Except.ok ss => Except.ok (EXAID.last_or ss last))) ∧
    ((EXAID.received_streamed_tokens_loop o cfg gate st id stream end_time
        last).2.2 =
      (EXAID.engine_run o id st
        (EXAID.gate_run cfg id end_time gate stream).2).2) ∧
    (∀ ss, (EXAID.engine_run o id st
        (EXAID.gate_run cfg id end_time gate stream).2).1 = Except.ok ss →
      (EXAID.received_streamed_tokens_loop o cfg gate st id stream end_time
        last).2.1 =
        (EXAID.gate_run cfg id end_time gate stream).1) := by
  intro stream
  induction stream with
  | nil =>
      intro gate st last
      simp only [EXAID.received_streamed_tokens_loop, EXAID.gate_run]
      rw [stream_process_chunk_engine]
      rcases EXAID.engine_run o id st
        (EXAID.opt_pair end_time (TokenGate.flush gate id).2) with ⟨r, st1⟩
      cases r with
      | error e =>
          refine ⟨by simp, by simp, ?_⟩
          intro ss hss
          simp at hss
      | ok ss =>
          refine ⟨by simp, by simp, ?_⟩
          intro ss2 hss
          simp
  | cons hd rest ih =>
      intro gate st last
      obtain ⟨now, token⟩ := hd
      simp only [EXAID.received_streamed_tokens_loop, EXAID.gate_run]
      rw [stream_process_chunk_engine]
      rw [engine_run_append, engine_run_append]
      rcases EXAID.engine_run o id st
        (EXAID.opt_pair now (TokenGate.add_token cfg gate id token now).2)
        with ⟨rA, stA⟩
      cases rA with
      | error e =>
          refine ⟨by simp, by simp, ?_⟩
          intro ss hss
          simp at hss
      | ok ssA =>
          simp only []
          rw [stream_process_chunk_engine]
          rcases EXAID.engine_run o id stA
            (EXAID.opt_pair now (TokenGate.check_timers cfg
              (TokenGate.add_token cfg gate id token now).1 id now).2)
            with ⟨rC, stC⟩
          cases rC with
          | error e =>
              refine ⟨by simp, by simp, ?_⟩
              intro ss hss
              simp at hss
          | ok ssC =>
              simp only []
              obtain ⟨ih1, ih2, ih3⟩ := ih
                (TokenGate.check_timers cfg
                  (TokenGate.add_token cfg gate id token now).1 id now).1
                stC (EXAID.last_or ssC (EXAID.last_or ssA last))
              rcases hR : EXAID.engine_run o id stC
                (EXAID.gate_run cfg id end_time
                  (TokenGate.check_timers cfg
                    (TokenGate.add_token cfg gate id token now).1 id now).1
                  rest).2 with ⟨rR, stR⟩
              rw [hR] at ih1 ih2 ih3
              cases rR with
              | error e =>
                  refine ⟨?_, ?_, ?_⟩
                  · rw [ih1]
                  · rw [ih2]
                  · intro ss hss; simp at hss
              | ok ssR =>
                  refine ⟨?_, ?_, ?_⟩
                  · rw [ih1]
                    simp [last_or_append]
                  · rw [ih2]
                  · intro ss _
                    exact ih3 ssR rfl

/-- Claim C1: `received_streamed_tokens` routes every token pulled from the
stream through the Token Gate, feeds every flushed chunk to the Buffer Agent
exactly as `received_trace` would — its returned value and final engine
state always equal those of the chunk-wise `received_trace` fold
(`engine_run`) over the gate's flush sequence (`gate_run`), and on an
exception-free run the final gate state is the gate-run state as well — and
it returns the last summary produced during the stream, or no value if none
was produced. -/
theorem exaid_received_streamed_tokens_staged (o : Oracles)
    (cfg : TokenGate.GateConfig) (gate : TokenGate.GateState)
    (st : EXAID.EXAIDState) (id : String) (stream : List (Int × String))
    (end_time : Int) :
    ((EXAID.received_streamed_tokens o cfg gate st id stream end_time).1 =
      (match (EXAID.engine_run o id st
          (EXAID.gate_run cfg id end_time gate stream).2).1 with
       | Except.error e => Except.error e
       | Except.ok ss => Except.ok ss.getLast?)) ∧
    ((EXAID.received_streamed_tokens o cfg gate st id stream end_time).2.2 =
      (EXAID.engine_run o id st
        (EXAID.gate_run cfg id end_time gate stream).2).2) ∧
    (∀ ss, (EXAID.engine_run o id st
        (EXAID.gate_run cfg id end_time gate stream).2).1 = Except.ok ss →
      (EXAID.received_streamed_tokens o cfg gate st id stream end_time).2.1 =
        (EXAID.gate_run cfg id end_time gate stream).1) := by
  obtain ⟨h1, h2, h3⟩ := received_streamed_tokens_loop_staged o cfg id
    end_time stream gate st none
  refine ⟨?_, h2, h3⟩
  rw [show EXAID.received_streamed_tokens o cfg gate st id stream end_time =
    EXAID.received_streamed_tokens_loop o cfg gate st id stream end_time none
    from rfl]
  rw [h1]
  rcases (EXAID.engine_run o id st
    (EXAID.gate_run cfg id end_time gate stream).2).1 with _ | ss
  · rfl
  · simp only [EXAID.last_or]
    rcases ss.getLast? with _ | s <;> rfl

/-- Witness for C1: the empty stream on a fresh gate and engine — an
exception-free run discharging the hypothesis of the gate-state conjunct. -/
theorem exaid_received_streamed_tokens_staged_witness :
    ((EXAID.received_streamed_tokens oracleNo TokenGate.defaultGateConfig
        TokenGate.GateState.init EXAID.EXAIDState.init "a" [] 0).1 =
      (match (EXAID.engine_run oracleNo "a" EXAID.EXAIDState.init
          (EXAID.gate_run TokenGate.defaultGateConfig "a" 0
            TokenGate.GateState.init []).2).1 with
       | Except.error e => Except.error e
       | Except.ok ss => Except.ok ss.getLast?)) ∧
    (EXAID.received_streamed_tokens oracleNo TokenGate.defaultGateConfig
        TokenGate.GateState.init EXAID.EXAIDState.init "a" [] 0).2.1 =
      (EXAID.gate_run TokenGate.defaultGateConfig "a" 0
        TokenGate.GateState.init []).1 :=
  ⟨(exaid_received_streamed_tokens_staged oracleNo TokenGate.defaultGateConfig
      TokenGate.GateState.init EXAID.EXAIDState.init "a" [] 0).1,
   (exaid_received_streamed_tokens_staged oracleNo TokenGate.defaultGateConfig
      TokenGate.GateState.init EXAID.EXAIDState.init "a" [] 0).2.2 []
     (by rfl)⟩

end ExAID
